import Mathlib

/-!
Shallow embedding of `spot/spot_manager.py` (SpotManager) with proofs of the
specification claims.  Prices, utilities and times are modelled as rationals
(`ℚ`); Python's `None` is modelled as `Option.none`; the silent null
propagation of the `pyLibrary.dot` wrappers is modelled explicitly where the
code depends on it.
-/

unseal Rat.add Rat.sub Rat.mul Rat.inv

/-! ## Null / coalesce semantics of the source's wrapper library -/

/-- Modelled from the spec: `pyLibrary.dot.coalesce` (the library itself is
not under `src/`) returns the first non-null argument, else null. -/
def coalesceO (a b : Option ℚ) : Option ℚ :=
  match a with
  | some v => some v
  | none => b

/-- Modelled from the spec: "silent null propagation" of the dot wrappers --
adding null to a number yields null. -/
def nullAdd (a b : Option ℚ) : Option ℚ :=
  match a, b with
  | some x, some y => some (x + y)
  | _, _ => none

/-- Modelled from the spec: the truth value of `x >= 0` when `x` may be null.
Under CPython 2's default mixed-type ordering a non-numeric object compares
greater than a number, so a null budget passes the `>= 0` test.  (No claim's
verdict depends on the null branch; every concrete input used below keeps the
budget numeric.) -/
def nullGe0 (a : Option ℚ) : Bool :=
  match a with
  | some v => decide (0 ≤ v)
  | none => true

/-- Modelled from the spec: `pyLibrary.maths.Math.min` ignores null arguments;
here the second argument is always a number, so a null first argument is
dropped. -/
def mMin (a : Option ℚ) (b : ℚ) : ℚ :=
  match a with
  | some x => min x b
  | none => b

/-- Python 2 `round` rounds half away from zero; `int(Math.round(q))` in
`add_instances` (spot_manager.py line 127) therefore is this integer. -/
def pyRound (q : ℚ) : ℤ :=
  if 0 ≤ q then ⌊q + 1/2⌋ else -⌊-q + 1/2⌋

/-! ## Status code vocabulary (spot_manager.py lines 501-522) -/

def TERMINATED_STATUS_CODES : List String :=
  ["capacity-oversubscribed", "capacity-not-available",
   "instance-terminated-capacity-oversubscribed", "bad-parameters"]

def RETRY_STATUS_CODES : List String :=
  ["instance-terminated-by-price", "bad-parameters",
   "canceled-before-fulfillment", "instance-terminated-by-user"]

def PENDING_STATUS_CODES : List String :=
  ["pending-evaluation", "pending-fulfillment", "az-group-constraint",
   "price-too-low"]

def RUNNING_STATUS_CODES : List String :=
  ["fulfilled", "request-canceled-and-instance-running"]

/-! ## Data model -/

/-- Operator configuration for one instance type (settings.utility entries). -/
structure InstanceTypeSpec where
  instance_type : String
  utility : ℚ
  discount : ℚ
deriving DecidableEq

/-- A pricing candidate as produced by `pricing()` for one
(availability_zone, instance_type): the fields consumed by `add_instances`. -/
structure Candidate where
  availability_zone : String
  type : InstanceTypeSpec
  price_80 : ℚ
  current_price : Option ℚ
  higher_price : Option ℚ
deriving DecidableEq

/-- A managed spot request as consumed by `update_spot_requests`. -/
structure SpotReqView where
  id : String
  price : ℚ
  instance_type : String
  status_code : String
deriving DecidableEq

/-- The `price_lookup` row for an instance type: the fields read while adding
up the active requests (`about.type.discount`, `about.type.utility`). -/
structure LookupEntry where
  utility : ℚ
  discount : ℚ

/-- A managed running instance as consumed by `save_money` and
`remove_instances`: its joined pricing markup fields, each possibly null. -/
structure MInst where
  id : String
  spot_instance_request_id : String
  utility : Option ℚ
  price_80 : Option ℚ
  current_price : Option ℚ
deriving DecidableEq

/-- Attribute access on the instance's markup under the dot wrappers: any
attribute name that is not an actual field silently yields null. -/
def MInst.markupAttr (s : MInst) (a : String) : Option ℚ :=
  if a = "price_80" then s.price_80
  else if a = "current_price" then s.current_price
  else if a = "utility" then s.utility
  else none

/-! ## find_higher (spot_manager.py lines 493-498) -/

/-- `find_higher(candidates, reference)`: the first element of the list that
is strictly greater than the reference, null when there is none
(`wrap([...])[0]` of an empty list is null). -/
def find_higher (candidates : List ℚ) (reference : ℚ) : Option ℚ :=
  (candidates.filter (fun c => decide (reference < c))).head?

/-! ## save_money (spot_manager.py lines 214-248) -/

/-- The amount added to `remaining_budget` per shut-down instance
(spot_manager.py line 231): `coalesce(s.markup.price_80, s.markup.curret_price)`.
The second attribute is spelled `curret_price` in the source, which under the
dot wrappers always reads as null. -/
def save_money_increment (s : MInst) : Option ℚ :=
  coalesceO s.price_80 (s.markupAttr "curret_price")

/-- Modelled from the spec: the increment the spec describes, "incrementing
`remaining_budget` by `price_80` (falling back to `current_price`)". -/
def spec_save_money_increment (s : MInst) : Option ℚ :=
  coalesceO s.price_80 s.current_price

/-- The `save_money` walk over running instances (spot_manager.py lines
225-231): while the remaining budget is below zero, append the instance to the
shutdown list, add its utility to `net_new_utility` and its
`save_money_increment` to the budget.  Returns (budget, net_new_utility,
shutdown list). -/
def saveMoneyWalk : Option ℚ → ℚ → List MInst → Option ℚ × ℚ × List MInst
  | rb, nn, [] => (rb, nn, [])
  | rb, nn, s :: rest =>
    if nullGe0 rb then (rb, nn, [])
    else
      let rb' := nullAdd rb (save_money_increment s)
      let nn' := nn + (coalesceO s.utility (some 0)).getD 0
      let r := saveMoneyWalk rb' nn' rest
      (r.1, r.2.1, s :: r.2.2)

/-- Result of `save_money`. -/
structure SaveResult where
  remaining : Option ℚ
  net_new : ℚ
  removed : List MInst
  cancelled_requests : List String

/-- `save_money(remaining_budget, net_new_utility)` (spot_manager.py lines
214-248): when the budget is negative mark every managed spot request for
cancellation, then walk the running instances until the budget recovers. -/
def save_money (requests : List SpotReqView) (instances : List MInst)
    (remaining_budget : ℚ) (net_new_utility : ℚ) : SaveResult :=
  let cancels :=
    if remaining_budget < 0 then requests.map (fun r => r.id) else []
  let w := saveMoneyWalk (some remaining_budget) net_new_utility instances
  { remaining := w.1
    net_new := w.2.1
    removed := w.2.2
    cancelled_requests :=
      cancels ++ w.2.2.map (fun s => s.spot_instance_request_id) }

/-! ## remove_instances (spot_manager.py lines 165-201) -/

/-- One pass of the greedy combination search at a fixed `acceptable_error`
(spot_manager.py lines 171-177): walk the instances in inventory order and
accept any whose utility is at most the remaining deficit plus the error.
Returns (remove list, remaining deficit). -/
def removePass (instances : List MInst) (err : ℚ) (deficit : ℚ) :
    List MInst × ℚ :=
  instances.foldl
    (fun acc s =>
      let u := (coalesceO s.utility (some 0)).getD 0
      if u ≤ acc.2 + err then (acc.1 ++ [s], acc.2 - u) else acc)
    ([], deficit)

/-- The `for acceptable_error in range(0, 8)` loop (spot_manager.py lines
170-180).  The loop breaks at the first error level whose pass covers the
deficit, reassigning `net_new_utility := -remaining`; without a break the
remove list of the last pass survives the loop.  Returns (remove list,
net_new_utility after the loop, whether the deficit was covered). -/
def removeSearchAux (instances : List MInst) (net_new : ℚ) :
    List ℚ → List MInst → List MInst × ℚ × Bool
  | [], lastList => (lastList, net_new, false)
  | err :: rest, _ =>
    let p := removePass instances err (-net_new)
    if p.2 ≤ 0 then (p.1, -p.2, true)
    else removeSearchAux instances net_new rest p.1

def acceptableErrors : List ℚ := (List.range 8).map (fun n => (n : ℚ))

/-- `remove_instances(net_new_utility)` (spot_manager.py lines 165-201):
run the greedy search; when the surviving remove list is empty return
`net_new_utility` untouched with no action, otherwise tear down the listed
instances and return the possibly reassigned `net_new_utility`.
Returns (instances torn down, returned net_new_utility). -/
def remove_instances (instances : List MInst) (net_new : ℚ) :
    List MInst × ℚ :=
  let r := removeSearchAux instances net_new acceptableErrors []
  if r.1.isEmpty then ([], r.2.1) else (r.1, r.2.1)

/-! ## add_instances (spot_manager.py lines 107-163) -/

/-- State threaded through `add_instances`: the outstanding utility, the
remaining budget (null once save_money nulled it), the successful submissions
as (bid, number of requests returned) pairs, and a running count of submission
attempts used to consult the submission oracle. -/
structure AddState where
  net_new : ℚ
  remaining : Option ℚ
  submitted : List (ℚ × ℕ)
  attempt : ℕ
deriving DecidableEq

/-- The truth value of `bid > remaining_budget` when the budget may be null
(CPython 2 orders numbers below non-numeric objects, so a bid never exceeds a
null budget). -/
def bidOverBudget (bid : ℚ) (rb : Option ℚ) : Bool :=
  match rb with
  | some r => decide (r < bid)
  | none => false

/-- The body of `for i in range(num)` (spot_manager.py lines 134-161): skip a
bid below the current price or above the remaining budget; otherwise submit.
The oracle maps the attempt number to `none` (the submission raised, caught
and logged at line 157) or `some k` (the cloud returned `k` requests). -/
def bidStep (oracle : ℕ → Option ℕ) (utility : ℚ) (cp : ℚ)
    (min_bid price_interval : ℚ) (st : AddState) (i : ℕ) : AddState :=
  let bid := min_bid + (i : ℚ) * price_interval
  if bid < cp ∨ bidOverBudget bid st.remaining then st
  else
    match oracle st.attempt with
    | none => { st with attempt := st.attempt + 1 }
    | some k =>
      { net_new := st.net_new - utility * (k : ℚ)
        remaining := st.remaining.map (fun r => r - bid * (k : ℚ))
        submitted := st.submitted ++ [(bid, k)]
        attempt := st.attempt + 1 }

/-- The body of `for p in prices` (spot_manager.py lines 110-161): skip a
candidate without a current price or whose `price_80` exceeds
`min(higher_price, utility * max_utility_price)`; otherwise ladder `num` bids
from `min_bid`, with the single-bid special case of line 129. -/
def candidateStep (max_utility_price : ℚ) (oracle : ℕ → Option ℕ)
    (st : AddState) (p : Candidate) : AddState :=
  match p.current_price with
  | none => st
  | some cp =>
    let max_bid := mMin p.higher_price (p.type.utility * max_utility_price)
    let min_bid := p.price_80
    if min_bid > max_bid then st
    else
      let num : ℤ := pyRound (st.net_new / p.type.utility)
      let mi :=
        if num = 1 then
          (min (max (cp * (11/10)) (min min_bid max_bid))
             (p.type.utility * max_utility_price), (0 : ℚ))
        else
          (min_bid, min (min_bid / 10) ((max_bid - min_bid) / ((num : ℚ) - 1)))
      (List.range num.toNat).foldl
        (bidStep oracle p.type.utility cp mi.1 mi.2) st

/-- `add_instances(net_new_utility, remaining_budget)` (spot_manager.py lines
107-163). -/
def add_instances (max_utility_price : ℚ) (oracle : ℕ → Option ℕ)
    (prices : List Candidate) (net_new : ℚ) (remaining : Option ℚ) :
    AddState :=
  prices.foldl (candidateStep max_utility_price oracle)
    { net_new := net_new, remaining := remaining, submitted := [], attempt := 0 }

/-- Total money committed by the submissions of an `AddState`: the sum of
bid times number of requests returned. -/
def AddState.spend (st : AddState) : ℚ :=
  (st.submitted.map (fun bk => bk.1 * (bk.2 : ℚ))).sum

/-! ## update_spot_requests (spot_manager.py lines 60-105) -/

/-- The environment of one `update_spot_requests` call: configuration, the
managed spot requests, the `price_lookup` table, the running instances in
inventory order, the ranked candidate list, and the submission oracle. -/
structure UpdateEnv where
  budget : ℚ
  max_new_utility : ℚ
  max_utility_price : ℚ
  requests : List SpotReqView
  lookup : String → LookupEntry
  instances : List MInst
  prices : List Candidate
  oracle : ℕ → Option ℕ

/-- Result of one `update_spot_requests` call, keeping the intermediate
budgets the claims speak about. -/
structure UpdateResult where
  startRemaining : ℚ
  remainingAtAdd : Option ℚ
  addState : AddState

/-- The requests counted as active (spot_manager.py line 64): status code in
RUNNING ∪ PENDING. -/
def activeRequests (requests : List SpotReqView) : List SpotReqView :=
  requests.filter
    (fun a => (RUNNING_STATUS_CODES ++ PENDING_STATUS_CODES).contains a.status_code)

/-- The remaining budget at the start of the call (spot_manager.py lines
65-82): the configured budget minus the sum of discounted prices over the
active requests. -/
def updStartRemaining (env : UpdateEnv) : ℚ :=
  env.budget -
    ((activeRequests env.requests).map
      (fun a => a.price - (env.lookup a.instance_type).discount)).sum

/-- The net new utility at the start of the call (spot_manager.py lines
84-85). -/
def updNetNew0 (env : UpdateEnv) (utility_required : ℚ) : ℚ :=
  utility_required -
    ((activeRequests env.requests).map
      (fun a => (env.lookup a.instance_type).utility)).sum

/-- Budget and net new utility after the `save_money` step (spot_manager.py
lines 87-88), which runs only when the budget is negative. -/
def updAfterSave (env : UpdateEnv) (utility_required : ℚ) : Option ℚ × ℚ :=
  if updStartRemaining env < 0 then
    let s := save_money env.requests env.instances (updStartRemaining env)
      (updNetNew0 env utility_required)
    (s.remaining, s.net_new)
  else (some (updStartRemaining env), updNetNew0 env utility_required)

/-- Net new utility after the `remove_instances` step (spot_manager.py lines
90-91), which runs only when utility is in surplus. -/
def updNN2 (env : UpdateEnv) (utility_required : ℚ) : ℚ :=
  if (updAfterSave env utility_required).2 ≤ 0 then
    (remove_instances env.instances (updAfterSave env utility_required).2).2
  else (updAfterSave env utility_required).2

/-- `update_spot_requests(utility_required)` (spot_manager.py lines 60-105):
compute the remaining budget and net new utility, run `save_money` when over
budget, `remove_instances` when in surplus, and `add_instances` when utility
is still wanted (capped at `max_new_utility`, lines 93-95). -/
def update_spot_requests (env : UpdateEnv) (utility_required : ℚ) :
    UpdateResult :=
  { startRemaining := updStartRemaining env
    remainingAtAdd := (updAfterSave env utility_required).1
    addState :=
      if 0 < updNN2 env utility_required then
        add_instances env.max_utility_price env.oracle env.prices
          (min (updNN2 env utility_required) env.max_new_utility)
          (updAfterSave env utility_required).1
      else
        { net_new := updNN2 env utility_required
          remaining := (updAfterSave env utility_required).1
          submitted := []
          attempt := 0 } }

/-! ## Life-cycle watcher (spot_manager.py lines 264-321) -/

/-- One setup attempt handled by the watcher pass: the instance and its
request, the wall-clock time (seconds) at which the attempt is handled, and
whether `instance_manager.setup` succeeded. -/
structure SetupAttempt where
  instance_id : String
  request_id : String
  now : ℚ
  ok : Bool
deriving DecidableEq

/-- What a pass's setup phase did: instances terminated, request ids removed
from the registry, and the `time_to_stop_trying` deadlines at the end. -/
structure SetupResult where
  terminated : List String
  removed : List String
  deadlines : List (String × ℚ)
deriving DecidableEq

/-- 5 minutes, `TIME_FROM_RUNNING_TO_LOGIN` (spot_manager.py line 36). -/
def TIME_FROM_RUNNING_TO_LOGIN : ℚ := 5 * 60

/-- Handling of one `(instance, request)` pair (spot_manager.py lines
273-291): on success tag the instance and drop the request from the registry;
on failure record a deadline of now + 5 min when none exists, and terminate
only when the attempt time is past the recorded deadline. -/
def setupStep (st : SetupResult) (a : SetupAttempt) : SetupResult :=
  if a.ok then { st with removed := st.removed ++ [a.request_id] }
  else
    match st.deadlines.lookup a.instance_id with
    | none =>
      { st with deadlines :=
          st.deadlines ++ [(a.instance_id, a.now + TIME_FROM_RUNNING_TO_LOGIN)] }
    | some d =>
      if d < a.now then
        { st with
            terminated := st.terminated ++ [a.instance_id]
            removed := st.removed ++ [a.request_id] }
      else st

/-- The setup phase of ONE watcher pass.  `time_to_stop_trying` is
initialized to the empty dict at the top of every pass (spot_manager.py
line 271), so the fold starts from no deadlines. -/
def setupPhase (attempts : List SetupAttempt) : SetupResult :=
  attempts.foldl setupStep { terminated := [], removed := [], deadlines := [] }

/-- Consecutive watcher passes: each pass runs `setupPhase` afresh, because
the deadline dict is rebuilt inside the loop body. -/
def watcherRunSetup (passes : List (List SetupAttempt)) : List SetupResult :=
  passes.map setupPhase

/-- An entry of the request registry (`net_new_spot_requests`). -/
structure RegEntry where
  id : String
  create_time : ℚ
deriving DecidableEq

/-- One minute, in seconds. -/
def MINUTEq : ℚ := 60

/-- The registry contents at the end of a watcher pass (spot_manager.py lines
300-306): when `done_spot_requests` has been signalled, drop every entry with
`create_time < Date.now() - run_interval + 2 * MINUTE`. -/
def watcher_registry_after_pass (done : Bool) (registry : List RegEntry)
    (now run_interval : ℚ) : List RegEntry :=
  if done then
    registry.filter
      (fun e => decide (¬ e.create_time < now - run_interval + 2 * MINUTEq))
  else registry

/-! ## _get_spot_prices_from_aws start time (spot_manager.py lines 441-457) -/

/-- Seven days, in seconds (`Date.today() - WEEK`). -/
def WEEKq : ℚ := 7 * 86400

/-- The fetch start time chosen for one instance type (spot_manager.py lines
450-457): today − 7 days when the aggregated `most_recents` table is empty or
has no timestamp for the type, else exactly the stored latest timestamp. -/
def get_pricing_start (most_recents : List (String × ℚ))
    (instance_type : String) (today : ℚ) : ℚ :=
  if most_recents.isEmpty then today - WEEKq
  else
    match most_recents.lookup instance_type with
    | none => today - WEEKq
    | some t => t

/-! ## _request_spot_instances (spot_manager.py lines 323-358) -/

/-- A configured network-interface specification (only the subnet id is
consulted by the zone filter). -/
structure NetworkInterfaceSettings where
  subnet_id : String
deriving DecidableEq

/-- The network interfaces put into the launch specification
(spot_manager.py lines 325-334).  Line 325 assigns a fresh empty
`NetworkInterfaceCollection()` to `settings.network_interfaces` BEFORE the
loop reads `settings.network_interfaces`, so the loop iterates over the empty
collection and the configured interfaces are never consulted. -/
def request_network_interfaces (subnets : List (String × String))
    (zone : String) (configured : List NetworkInterfaceSettings) :
    List NetworkInterfaceSettings :=
  let network_interfaces : List NetworkInterfaceSettings := []
  network_interfaces.foldl
    (fun acc s =>
      match subnets.lookup s.subnet_id with
      | some az => if az = zone then acc ++ [s] else acc
      | none => acc)
    []

/-- Modelled from the spec: "`launch_spec` must include exactly those
network-interface specifications whose subnet lies in the requested
`zone_group`" (an interface whose subnet is unknown is skipped with a
warning). -/
def spec_network_interfaces (subnets : List (String × String))
    (zone : String) (configured : List NetworkInterfaceSettings) :
    List NetworkInterfaceSettings :=
  configured.filter (fun s => subnets.lookup s.subnet_id = some zone)

/-- `Log.error` at spot_manager.py line 337 raises whenever the interface
list built for the launch specification is empty, failing the submission. -/
def request_spot_fails_for_interfaces (subnets : List (String × String))
    (zone : String) (configured : List NetworkInterfaceSettings) : Bool :=
  (request_network_interfaces subnets zone configured).length = 0

/-! ## ephemeral_storage (spot_manager.py lines 546-593) -/

/-- The ephemeral-disk table: instance type ↦ (num, size). -/
def ephemeral_storage : List (String × ℕ × ℕ) :=
  [("c1.medium", 1, 350), ("c1.xlarge", 4, 420), ("c3.2xlarge", 2, 80),
   ("c3.4xlarge", 2, 160), ("c3.8xlarge", 2, 320), ("c3.large", 2, 16),
   ("c3.xlarge", 2, 40), ("c4.2xlarge", 0, 0), ("c4.4xlarge", 0, 0),
   ("c4.8xlarge", 0, 0), ("c4.large", 0, 0), ("c4.xlarge", 0, 0),
   ("cc2.8xlarge", 4, 840), ("cg1.4xlarge", 2, 840), ("cr1.8xlarge", 2, 120),
   ("d2.2xlarge", 6, 2000), ("d2.4xlarge", 12, 2000), ("d2.8xlarge", 24, 2000),
   ("d2.xlarge", 3, 2000), ("g2.2xlarge", 1, 60), ("hi1.4xlarge", 2, 1024),
   ("hs1.8xlarge", 24, 2000), ("i2.2xlarge", 2, 800), ("i2.4xlarge", 4, 800),
   ("i2.8xlarge", 8, 800), ("i2.xlarge", 1, 800), ("m1.large", 2, 420),
   ("m1.medium", 1, 410), ("m1.small", 1, 160), ("m1.xlarge", 4, 420),
   ("m2.2xlarge", 1, 850), ("m2.4xlarge", 2, 840), ("m2.xlarge", 1, 420),
   ("m3.2xlarge", 2, 80), ("m3.large", 1, 32), ("m3.medium", 1, 4),
   ("m3.xlarge", 2, 40), ("r3.2xlarge", 1, 160), ("r3.4xlarge", 1, 320),
   ("r3.8xlarge", 2, 320), ("r3.large", 1, 32), ("r3.xlarge", 1, 80),
   ("t1.micro", 0, 0), ("t2.medium", 0, 0), ("t2.micro", 0, 0),
   ("t2.small", 0, 0)]

/-- The block-device-mapping lookup `ephemeral_storage[instance_type]["num"]`
(spot_manager.py line 343); `none` models the `KeyError` raised for a type
that is not a key of the plain Python dict. -/
def ephemeral_storage_num (instance_type : String) : Option ℕ :=
  (ephemeral_storage.lookup instance_type).map (fun p => p.1)

/-! ## Auxiliary predicates and concrete environments used by the proofs -/

/-- Budget invariant threaded through `add_instances` when it is started with
budget `r`: the budget stays a number `v`, the money spent so far is exactly
`r - v`, and `v` is non-negative unless no submission has been paid yet. -/
def AddInv (r : ℚ) (st : AddState) : Prop :=
  ∃ v, st.remaining = some v ∧ st.spend = r - v ∧ (0 ≤ v ∨ v = r)

/-- A concrete `update_spot_requests` environment that is over budget at the
start of the call: budget 1 with one fulfilled request at price 2, one
running instance (utility 1, price_80 2), and one fundable candidate. -/
def env0 : UpdateEnv :=
  { budget := 1
    max_new_utility := 10
    max_utility_price := 1/2
    requests := [⟨"sir-1", 2, "a", "fulfilled"⟩]
    lookup := fun _ => ⟨1, 0⟩
    instances := [⟨"i-1", "sir-1", some 1, some 2, some (1/10)⟩]
    prices := [⟨"us-west-2c", ⟨"b", 1, 0⟩, 1/10, some (1/10), some (2/10)⟩]
    oracle := fun _ => some 1 }

/-- A concrete `update_spot_requests` environment inside budget: budget 1, no
requests, no instances, no candidates. -/
def envW : UpdateEnv :=
  { budget := 1
    max_new_utility := 10
    max_utility_price := 1/2
    requests := []
    lookup := fun _ => ⟨1, 0⟩
    instances := []
    prices := []
    oracle := fun _ => some 0 }

/-! ## Theorems -/

/-- Claim C1 (the code contradicts it): `_request_spot_instances` overwrites
the configured `network_interfaces` with an empty collection before the zone
filter reads them (spot_manager.py line 325), so the launch specification is
always empty and `Log.error` at line 337 always fails the submission -- even
when a configured interface's subnet lies in the requested zone group, as in
this concrete input, where the spec-mandated filter keeps the interface. -/
theorem c1_interfaces_overwritten :
    request_network_interfaces [("subnet-1", "us-east-1e")] "us-east-1e"
      [⟨"subnet-1"⟩] = [] ∧
    request_spot_fails_for_interfaces [("subnet-1", "us-east-1e")] "us-east-1e"
      [⟨"subnet-1"⟩] = true ∧
    spec_network_interfaces [("subnet-1", "us-east-1e")] "us-east-1e"
      [⟨"subnet-1"⟩] = [⟨"subnet-1"⟩] := by
  decide

/-- Claim C2 (the code contradicts it): `time_to_stop_trying` is rebuilt
empty at the top of every watcher pass (spot_manager.py line 271), so an
instance that fails setup at t = 1000 s and again at t = 1360 s (six minutes
later, in the next pass) is terminated in neither pass and its request is
never removed from the registry: the deadline 1000 + 300 recorded by the
first pass is forgotten before the second failure is handled. -/
theorem c2_setup_deadline_not_persisted :
    (watcherRunSetup [[⟨"i-1", "sir-1", 1000, false⟩],
        [⟨"i-1", "sir-1", 1360, false⟩]]).map SetupResult.terminated
      = [[], []] ∧
    (watcherRunSetup [[⟨"i-1", "sir-1", 1000, false⟩],
        [⟨"i-1", "sir-1", 1360, false⟩]]).map SetupResult.removed
      = [[], []] ∧
    (setupPhase [⟨"i-1", "sir-1", 1000, false⟩]).deadlines = [("i-1", 1300)] := by
  decide

/-- Claim C5 (the code contradicts it): the `save_money` fallback reads the
misspelled attribute `curret_price` (spot_manager.py line 231), which the dot
wrappers resolve to null, so an instance whose `price_80` is null contributes
null to the budget instead of its `current_price` of 1/10. -/
theorem c5_curret_price_typo :
    save_money_increment ⟨"i-1", "sir-1", some 1, none, some (1/10)⟩ = none ∧
    spec_save_money_increment ⟨"i-1", "sir-1", some 1, none, some (1/10)⟩
      = some (1/10) := by
  decide

/-- Claim C9, counterexample: with a stored latest timestamp of 30 days ago
(today − 2592000 s) the fetch starts exactly there, which is strictly earlier
than today − 7 days, contradicting the claimed
`max(latest_timestamp, today − 7 days)` lower bound. -/
theorem c9_start_at_counterexample :
    get_pricing_start [("m3.large", -2592000)] "m3.large" 0 = -2592000 ∧
    get_pricing_start [("m3.large", -2592000)] "m3.large" 0 < 0 - WEEKq := by
  decide

/-- Claim C9, amended: the fetch for an instance type starts exactly at the
stored latest timestamp when the store has one for the type -- however old it
is -- and at today − 7 days only when it has none. -/
theorem c9_start_at_amended (most_recents : List (String × ℚ)) (t : String)
    (today : ℚ) :
    (∀ ts, most_recents.lookup t = some ts →
      get_pricing_start most_recents t today = ts) ∧
    (most_recents.lookup t = none →
      get_pricing_start most_recents t today = today - WEEKq) := by
  constructor
  · intro ts h
    unfold get_pricing_start
    have hne : most_recents.isEmpty = false := by
      cases most_recents with
      | nil => simp [List.lookup] at h
      | cons a l => rfl
    simp [hne, h]
  · intro h
    unfold get_pricing_start
    cases hE : most_recents.isEmpty <;> simp [hE, h]

/-- Claim C9, witness for the amended claim at a concrete input: a stored
timestamp of 5 is used verbatim as the fetch start. -/
theorem c9_start_at_witness :
    get_pricing_start [("m3.large", (5 : ℚ))] "m3.large" 100 = 5 :=
  (c9_start_at_amended [("m3.large", (5 : ℚ))] "m3.large" 100).1 5 (by decide)

/-- Claim C10, counterexample: the `ephemeral_storage` table has 46 distinct
instance-type keys, not the 48 the claim states. -/
theorem c10_ephemeral_counterexample :
    (ephemeral_storage.map Prod.fst).Nodup ∧
    ephemeral_storage.length = 46 ∧
    ¬ ephemeral_storage.length = 48 := by
  decide

/-- Claim C10, amended: the block-device-mapping lookup is a partial map over
a fixed set of 46 distinct instance types -- a type outside the table (such
as m4.large) has no entry, so line 343 raises KeyError -- and `add_instances`
catches a failed submission and continues with the remaining bids: with an
oracle that raises on the first attempt, the second bid of the ladder is
still attempted and submitted. -/
theorem c10_ephemeral_amended :
    ephemeral_storage_num "m4.large" = none ∧
    ephemeral_storage_num "m3.large" = some 1 ∧
    (ephemeral_storage.map Prod.fst).Nodup ∧
    ephemeral_storage.length = 46 ∧
    (add_instances (1/2) (fun n => if n = 0 then none else some 1)
        [⟨"us-west-2c", ⟨"b", 1, 0⟩, 1/10, some (1/10), some (2/10)⟩]
        2 (some 10)).submitted = [(11/100, 1)] ∧
    (add_instances (1/2) (fun n => if n = 0 then none else some 1)
        [⟨"us-west-2c", ⟨"b", 1, 0⟩, 1/10, some (1/10), some (2/10)⟩]
        2 (some 10)).attempt = 2 := by
  decide

/-- Claim C7 (confirmed): at the end of a watcher pass with
`done_spot_requests` signalled, every entry remaining in the request registry
satisfies now − create_time ≤ run_interval + 2 min.  The code's GC cutoff
`now − run_interval + 2 min` (spot_manager.py line 302) keeps only entries
with now − create_time ≤ run_interval − 2 min, which is within the claimed
bound. -/
theorem c7_registry_gc_bound (registry : List RegEntry) (now run_interval : ℚ)
    (e : RegEntry)
    (he : e ∈ watcher_registry_after_pass true registry now run_interval) :
    now - e.create_time ≤ run_interval + 2 * MINUTEq := by
  unfold watcher_registry_after_pass at he
  simp only [if_true, List.mem_filter, decide_eq_true_eq] at he
  have h2 : ¬ e.create_time < now - run_interval + 2 * MINUTEq := he.2
  unfold MINUTEq at h2 ⊢
  linarith [not_lt.mp h2]

/-- Claim C7, witness: a registry entry created at t = 60 survives the GC of
a pass at now = 60 with run_interval = 120 s, and its age is within the
bound. -/
theorem c7_registry_gc_witness :
    (60 : ℚ) - (RegEntry.mk "sir-1" 60).create_time ≤ 120 + 2 * MINUTEq :=
  c7_registry_gc_bound [⟨"sir-1", 60⟩] 60 120 ⟨"sir-1", 60⟩ (by decide)

/-- Helper: when the greedy search never covers the deficit, the
`net_new_utility` it carries is never reassigned. -/
theorem removeSearchAux_not_covered (insts : List MInst) (nn : ℚ) :
    ∀ (errs : List ℚ) (lastList : List MInst),
      (removeSearchAux insts nn errs lastList).2.2 = false →
      (removeSearchAux insts nn errs lastList).2.1 = nn := by
  intro errs
  induction errs with
  | nil => intro lastList _; rfl
  | cons e rest ih =>
    intro lastList h
    rw [removeSearchAux] at h ⊢
    by_cases hp : (removePass insts e (-nn)).2 ≤ 0
    · simp only [if_pos hp] at h
      exact absurd h (by decide)
    · simp only [if_neg hp] at h ⊢
      exact ih _ h

/-- Helper: when the greedy search covers the deficit at some error level,
the reassigned `net_new_utility` is the negated remaining deficit, which is
non-negative. -/
theorem removeSearchAux_covered_nonneg (insts : List MInst) (nn : ℚ) :
    ∀ (errs : List ℚ) (lastList : List MInst),
      (removeSearchAux insts nn errs lastList).2.2 = true →
      0 ≤ (removeSearchAux insts nn errs lastList).2.1 := by
  intro errs
  induction errs with
  | nil => intro lastList h; simp [removeSearchAux] at h
  | cons e rest ih =>
    intro lastList h
    rw [removeSearchAux] at h ⊢
    by_cases hp : (removePass insts e (-nn)).2 ≤ 0
    · simp only [if_pos hp]
      exact neg_nonneg.mpr hp
    · simp only [if_neg hp] at h ⊢
      exact ih _ h

/-- Helper: the value returned by `remove_instances` is the one carried out
of the greedy search regardless of whether any instance is torn down
(spot_manager.py lines 182-183 and 201 both return `net_new_utility`). -/
theorem remove_instances_snd (insts : List MInst) (nn : ℚ) :
    (remove_instances insts nn).2 =
      (removeSearchAux insts nn acceptableErrors []).2.1 := by
  unfold remove_instances
  by_cases hE : (removeSearchAux insts nn acceptableErrors []).1.isEmpty <;>
    simp [hE]

/-- Claim C4, counterexample: with one running instance of utility 3 and
net_new_utility = −1, no error level below 2 covers the deficit, but at
acceptable_error = 2 the instance is accepted with overshoot 2: the instance
IS torn down and the call returns 2, which is positive -- contradicting "
whenever instances are shut down, the returned residual utility is ≤ 0". -/
theorem c4_remove_counterexample :
    (remove_instances [⟨"i-1", "sir-1", some 3, none, none⟩] (-1)).1 ≠ [] ∧
    (remove_instances [⟨"i-1", "sir-1", some 3, none, none⟩] (-1)).2 = 2 ∧
    ¬ (remove_instances [⟨"i-1", "sir-1", some 3, none, none⟩] (-1)).2 ≤ 0 := by
  decide

/-- Claim C4, amended: for `remove_instances(net_new_utility ≤ 0)`: when the
greedy search over acceptable_error in [0, 8) finds no covering combination,
net_new_utility is returned unchanged, and nothing is torn down only if the
final (error 7) pass also collected no instances -- a non-covering non-empty
final pass is torn down anyway; when the search covers the deficit, the
returned residual is the overshoot, which is ≥ 0, not ≤ 0. -/
theorem c4_remove_amended (insts : List MInst) (net_new : ℚ)
    (h : net_new ≤ 0) :
    ((removeSearchAux insts net_new acceptableErrors []).2.2 = false →
      (removeSearchAux insts net_new acceptableErrors []).1 = [] →
      remove_instances insts net_new = ([], net_new)) ∧
    ((removeSearchAux insts net_new acceptableErrors []).2.2 = false →
      (remove_instances insts net_new).2 = net_new) ∧
    ((removeSearchAux insts net_new acceptableErrors []).2.2 = true →
      0 ≤ (remove_instances insts net_new).2) := by
  refine ⟨?_, ?_, ?_⟩
  · intro hc hl
    unfold remove_instances
    simp [hl, removeSearchAux_not_covered insts net_new acceptableErrors [] hc]
  · intro hc
    rw [remove_instances_snd]
    exact removeSearchAux_not_covered insts net_new acceptableErrors [] hc
  · intro hc
    rw [remove_instances_snd]
    exact removeSearchAux_covered_nonneg insts net_new acceptableErrors [] hc

/-- Claim C4, witness for the amended claim: a single instance of utility 1
covers the deficit 1 exactly at error 0, so the returned residual is ≥ 0. -/
theorem c4_remove_witness :
    0 ≤ (remove_instances [⟨"i-1", "sir-1", some 1, none, none⟩] (-1)).2 :=
  (c4_remove_amended [⟨"i-1", "sir-1", some 1, none, none⟩] (-1)
    (by norm_num)).2.2 (by decide)

/-- Claim C6 (confirmed over the spec-modelled ordering of `all_price`):
`find_higher` returns the FIRST element greater than the reference, so on an
ascending `all_price` it is null exactly when no element exceeds `price_80`,
and otherwise returns a member greater than the reference that is a lower
bound of every other element greater than the reference -- the minimum the
claim describes. -/
theorem c6_find_higher_min (l : List ℚ) (r : ℚ) (hs : l.Sorted (· ≤ ·)) :
    (find_higher l r = none ↔ ∀ x ∈ l, x ≤ r) ∧
    (∀ y, find_higher l r = some y →
      y ∈ l ∧ r < y ∧ ∀ x ∈ l, r < x → y ≤ x) := by
  constructor
  · unfold find_higher
    rw [List.head?_eq_none_iff, List.filter_eq_nil_iff]
    constructor
    · intro h x hx
      have := h x hx
      simpa using this
    · intro h x hx
      simpa using not_lt.mpr (h x hx)
  · intro y hy
    unfold find_higher at hy
    cases hf : l.filter (fun c => decide (r < c)) with
    | nil => rw [hf] at hy; simp at hy
    | cons a t =>
      rw [hf] at hy
      simp only [List.head?_cons, Option.some.injEq] at hy
      have hmem : y ∈ l.filter (fun c => decide (r < c)) := by
        rw [hf, ← hy]
        exact List.mem_cons_self a t
      rw [List.mem_filter] at hmem
      refine ⟨hmem.1, by simpa using hmem.2, ?_⟩
      intro x hx hrx
      have hxf : x ∈ l.filter (fun c => decide (r < c)) :=
        List.mem_filter.mpr ⟨hx, by simpa using hrx⟩
      rw [hf] at hxf
      rcases List.mem_cons.mp hxf with hxy | hxt
      · exact le_of_eq (hy.symm.trans hxy.symm)
      · have hsf : (l.filter (fun c => decide (r < c))).Pairwise (· ≤ ·) :=
          List.Pairwise.filter _ hs
        rw [hf] at hsf
        have hax := (List.pairwise_cons.mp hsf).1 x hxt
        rw [hy] at hax
        exact hax

/-- Claim C6, witness on the ascending list [1, 2, 3] with reference 3/2:
the result 2 is the least element above 3/2. -/
theorem c6_find_higher_min_witness :
    find_higher [(1 : ℚ), 2, 3] (3/2) = some 2 ∧
    (∀ y, find_higher [(1 : ℚ), 2, 3] (3/2) = some y →
      y ∈ [(1 : ℚ), 2, 3] ∧ 3/2 < y ∧
        ∀ x ∈ [(1 : ℚ), 2, 3], 3/2 < x → y ≤ x) :=
  ⟨by decide,
   (c6_find_higher_min [(1 : ℚ), 2, 3] (3/2)
     (by simp [List.sorted_cons]; norm_num)).2⟩

/-- Claim C8, counterexample: candidate with current_price 0.20,
price_80 0.10, higher_price 0.15, utility 1; max_utility_price 0.50 and
net_new_utility 1, so num = 1.  max_bid = min(0.15, 0.50) = 0.15, yet the
single bid submitted is min(max(0.20 × 1.1, min(0.10, 0.15)), 0.50) = 0.22,
which exceeds max_bid -- contradicting "the bid never exceeds max_bid". -/
theorem c8_num1_counterexample :
    (add_instances (1/2) (fun _ => some 1)
        [⟨"us-west-2c", ⟨"t", 1, 0⟩, 1/10, some (2/10), some (15/100)⟩]
        1 (some 10)).submitted = [(11/50, 1)] ∧
    mMin (some (15/100)) ((1 : ℚ) * (1/2)) = 15/100 ∧
    ¬ ((11 : ℚ)/50 ≤ 15/100) := by
  decide

/-- Claim C8, amended: when num == 1, the single bid attempted is
min(max(current_price × 1.10, min(min_bid, max_bid)),
type.utility × max_utility_price) (spot_manager.py line 129) -- the result is
capped by type.utility × max_utility_price, but it is NOT clamped to
max_bid = min(higher_price, type.utility × max_utility_price), which it can
exceed whenever current_price × 1.10 does. -/
theorem c8_num1_amended (max_utility_price : ℚ) (oracle : ℕ → Option ℕ)
    (st : AddState) (p : Candidate) (cp : ℚ)
    (hcp : p.current_price = some cp)
    (hrange : ¬ p.price_80 >
      mMin p.higher_price (p.type.utility * max_utility_price))
    (hnum : pyRound (st.net_new / p.type.utility) = 1) :
    candidateStep max_utility_price oracle st p =
      bidStep oracle p.type.utility cp
        (min (max (cp * (11/10))
          (min p.price_80
            (mMin p.higher_price (p.type.utility * max_utility_price))))
          (p.type.utility * max_utility_price)) 0 st 0 ∧
    min (max (cp * (11/10))
        (min p.price_80
          (mMin p.higher_price (p.type.utility * max_utility_price))))
        (p.type.utility * max_utility_price)
      ≤ p.type.utility * max_utility_price := by
  refine ⟨?_, min_le_right _ _⟩
  unfold candidateStep
  rw [hcp]
  simp only [hnum, if_neg hrange, if_pos rfl]
  simp [List.range_succ]

/-- Claim C8, witness for the amended claim at the counterexample's
candidate: num = 1 holds, min_bid ≤ max_bid holds, and the single-bid
formula with its utility-price cap applies. -/
theorem c8_num1_witness :
    candidateStep (1/2) (fun _ => some 1)
      { net_new := 1, remaining := some 10, submitted := [], attempt := 0 }
      ⟨"us-west-2c", ⟨"t", 1, 0⟩, 1/10, some (2/10), some (15/100)⟩ =
      bidStep (fun _ => some 1) (1 : ℚ) (2/10)
        (min (max ((2/10) * (11/10))
          (min (1/10) (mMin (some (15/100)) ((1 : ℚ) * (1/2)))))
          ((1 : ℚ) * (1/2))) 0
        { net_new := 1, remaining := some 10, submitted := [], attempt := 0 } 0 ∧
    min (max ((2/10) * (11/10))
        (min (1/10) (mMin (some (15/100)) ((1 : ℚ) * (1/2)))))
        ((1 : ℚ) * (1/2)) ≤ (1 : ℚ) * (1/2) :=
  c8_num1_amended (1/2) (fun _ => some 1)
    { net_new := 1, remaining := some 10, submitted := [], attempt := 0 }
    ⟨"us-west-2c", ⟨"t", 1, 0⟩, 1/10, some (2/10), some (15/100)⟩ (2/10)
    rfl (by decide) (by decide)

/-- Helper: one bid step preserves the budget invariant when every successful
submission returns at most one request: a skipped bid changes nothing, and an
accepted bid is at most the current budget, which therefore stays
non-negative once any request has been paid for. -/
theorem bidStep_inv (oracle : ℕ → Option ℕ)
    (hk : ∀ n k, oracle n = some k → k ≤ 1)
    (utility cp min_bid price_interval : ℚ) (r : ℚ) (st : AddState) (i : ℕ)
    (h : AddInv r st) :
    AddInv r (bidStep oracle utility cp min_bid price_interval st i) := by
  obtain ⟨v, hv, hs, hge⟩ := h
  unfold bidStep
  by_cases hskip :
      (min_bid + (i : ℚ) * price_interval < cp ∨
        bidOverBudget (min_bid + (i : ℚ) * price_interval) st.remaining = true)
  · rw [if_pos hskip]
    exact ⟨v, hv, hs, hge⟩
  · rw [if_neg hskip]
    cases ho : oracle st.attempt with
    | none => exact ⟨v, hv, hs, hge⟩
    | some k =>
      push_neg at hskip
      have hbid : min_bid + (i : ℚ) * price_interval ≤ v := by
        have h2 := hskip.2
        rw [hv] at h2
        unfold bidOverBudget at h2
        simpa using h2
      have hs' : (List.map (fun bk => bk.1 * (bk.2 : ℚ)) st.submitted).sum
          = r - v := hs
      rcases Nat.le_one_iff_eq_zero_or_eq_one.mp (hk _ _ ho) with rfl | rfl
      · refine ⟨v, by simp [hv], ?_, hge⟩
        simp only [AddState.spend, List.map_append, List.map_cons, List.map_nil,
          List.sum_append, List.sum_cons, List.sum_nil, Nat.cast_zero, mul_zero,
          add_zero]
        exact hs'
      · refine ⟨v - (min_bid + (i : ℚ) * price_interval), by simp [hv], ?_,
          Or.inl (by linarith)⟩
        simp only [AddState.spend, List.map_append, List.map_cons, List.map_nil,
          List.sum_append, List.sum_cons, List.sum_nil, Nat.cast_one, mul_one,
          add_zero]
        rw [hs']
        ring

/-- Helper: the bid ladder preserves the budget invariant. -/
theorem foldl_bidStep_inv (oracle : ℕ → Option ℕ)
    (hk : ∀ n k, oracle n = some k → k ≤ 1)
    (utility cp min_bid price_interval : ℚ) (r : ℚ) :
    ∀ (l : List ℕ) (st : AddState), AddInv r st →
      AddInv r (l.foldl (bidStep oracle utility cp min_bid price_interval) st) := by
  intro l
  induction l with
  | nil => intro st h; exact h
  | cons i t ih =>
    intro st h
    exact ih _ (bidStep_inv oracle hk utility cp min_bid price_interval r st i h)

/-- Helper: handling one candidate preserves the budget invariant. -/
theorem candidateStep_inv (mup : ℚ) (oracle : ℕ → Option ℕ)
    (hk : ∀ n k, oracle n = some k → k ≤ 1)
    (r : ℚ) (st : AddState) (p : Candidate)
    (h : AddInv r st) : AddInv r (candidateStep mup oracle st p) := by
  cases hcp : p.current_price with
  | none =>
    simp only [candidateStep, hcp]
    exact h
  | some cp =>
    simp only [candidateStep, hcp]
    by_cases hr : p.price_80 > mMin p.higher_price (p.type.utility * mup)
    · rw [if_pos hr]
      exact h
    · rw [if_neg hr]
      exact foldl_bidStep_inv oracle hk _ _ _ _ r _ st h

/-- Helper: `add_instances` started with a numeric budget `r` and submissions
that return at most one request each spends at most `max r 0` in total. -/
theorem add_instances_spend_le (mup : ℚ) (oracle : ℕ → Option ℕ)
    (hk : ∀ n k, oracle n = some k → k ≤ 1)
    (prices : List Candidate) (net_new r : ℚ) :
    (add_instances mup oracle prices net_new (some r)).spend ≤ max r 0 := by
  have hI : AddInv r (add_instances mup oracle prices net_new (some r)) := by
    unfold add_instances
    have hfold : ∀ (ps : List Candidate) (st : AddState), AddInv r st →
        AddInv r (ps.foldl (candidateStep mup oracle) st) := by
      intro ps
      induction ps with
      | nil => intro st h; exact h
      | cons p t ih =>
        intro st h
        exact ih _ (candidateStep_inv mup oracle hk r st p h)
    exact hfold prices _ ⟨r, rfl, by simp [AddState.spend], Or.inr rfl⟩
  obtain ⟨v, hv, hs, hge⟩ := hI
  rcases hge with hge | hge
  · rw [hs]
    have := le_max_left r 0
    linarith
  · rw [hs, hge, sub_self]
    exact le_max_right r 0

/-- Claim C3, counterexample: with budget 1 and one active request at price
2 the remaining budget at the start of the call is −1; `save_money` then
frees budget by shutting an instance down (price_80 = 2) and raises
net_new_utility to 3, after which `add_instances` submits three requests
with bids summing to 0.33 -- which exceeds the start-of-call remaining
budget of −1, contradicting the claimed bound. -/
theorem c3_budget_counterexample :
    (update_spot_requests env0 3).startRemaining = -1 ∧
    (update_spot_requests env0 3).addState.spend = 33/100 ∧
    ¬ (update_spot_requests env0 3).addState.spend ≤
        (update_spot_requests env0 3).startRemaining := by
  decide

/-- Claim C3, amended: provided every spot submission returns at most one
request, the sum of bid prices over all requests submitted during the call
is at most max(r, 0), where r is the remaining budget in effect when
`add_instances` is invoked; and whenever the remaining budget computed at
the start of the call is non-negative, r IS that start-of-call remaining
budget (`save_money` does not run).  The original bound fails only when the
start-of-call remaining budget is negative. -/
theorem c3_budget_safety_amended (env : UpdateEnv) (u r : ℚ)
    (hk : ∀ n k, env.oracle n = some k → k ≤ 1)
    (hr : (update_spot_requests env u).remainingAtAdd = some r) :
    (update_spot_requests env u).addState.spend ≤ max r 0 ∧
    (0 ≤ (update_spot_requests env u).startRemaining →
      (update_spot_requests env u).remainingAtAdd =
        some ((update_spot_requests env u).startRemaining)) := by
  have hr' : (updAfterSave env u).1 = some r := hr
  constructor
  · show (if 0 < updNN2 env u then
        add_instances env.max_utility_price env.oracle env.prices
          (min (updNN2 env u) env.max_new_utility) (updAfterSave env u).1
      else
        { net_new := updNN2 env u, remaining := (updAfterSave env u).1,
          submitted := [], attempt := 0 }).spend ≤ max r 0
    by_cases hpos : 0 < updNN2 env u
    · rw [if_pos hpos, hr']
      exact add_instances_spend_le env.max_utility_price env.oracle hk
        env.prices (min (updNN2 env u) env.max_new_utility) r
    · rw [if_neg hpos]
      show (0 : ℚ) ≤ max r 0
      exact le_max_right r 0
  · intro h0
    have h0' : 0 ≤ updStartRemaining env := h0
    show (updAfterSave env u).1 = some (updStartRemaining env)
    unfold updAfterSave
    rw [if_neg (not_lt.mpr h0')]

/-- Claim C3, witness for the amended claim on a within-budget environment
(budget 1, no active requests): the call spends nothing, which is within
max(1, 0), and the budget handed to `add_instances` is the start-of-call
remaining budget. -/
theorem c3_budget_safety_witness :
    (update_spot_requests envW 0).addState.spend ≤ max 1 0 ∧
    (0 ≤ (update_spot_requests envW 0).startRemaining →
      (update_spot_requests envW 0).remainingAtAdd =
        some ((update_spot_requests envW 0).startRemaining)) :=
  c3_budget_safety_amended envW 0 1
    (by intro n k h; injection h with h; omega)
    (by decide)
